import Mathlib

/-!
Shallow embedding of the signal-automation service layer
(src/services/signal_service.py, database_service.py, message_handler.py,
alert_service.py, webhook_service.py) together with proofs about the
notification and conversation engine.

External collaborators (the signal-cli transport, the MySQL store, the
template lookup, the random token generator and the datetime formatter) are
modelled as oracle inputs: every external call site receives the outcome of
that call as an explicit parameter, and the embedded control flow is a direct
translation of the Python source.  Python exceptions are modelled with an
explicit raised/leaked branch in each outcome type; a `try/except` block in
the source becomes a `match` on the embedded result.
-/

set_option linter.unusedVariables false

namespace SignalAutomation

/-- Embedding of the Python string method `.strip()`: drop whitespace from
both ends.  (Defined on the character list so that it reduces inside the
kernel.) -/
def strip (s : String) : String :=
  ⟨((s.data.dropWhile Char.isWhitespace).reverse.dropWhile
      Char.isWhitespace).reverse⟩

/-- Embedding of the Python string method `.lower()`: lower-case every
character. -/
def lower (s : String) : String :=
  ⟨s.data.map Char.toLower⟩

/-- Outcome of one call into the MySQL layer, as seen by the
`DatabaseService` wrappers: a successful result, a
`mysql.connector.IntegrityError` (unique-constraint violation), any other
`mysql.connector.Error`, or an exception that is not a connector `Error`
(which the wrappers do not catch and therefore leaks to the caller). -/
inductive DbOutcome (α : Type) where
  | ok (a : α)
  | integrityError (msg : String)
  | dbError (msg : String)
  | exc (msg : String)
deriving DecidableEq

/-- Affiliate row (src/models/affiliate.py).  `created_at` is kept opaque as
a number; its formatting is delegated to the datetime oracle. -/
structure Affiliate where
  id : Nat
  phone_number : String
  token : String
  created_at : Nat
  is_active : Bool
deriving DecidableEq

/-- Order row (src/models/order.py).  The `Decimal` total is modelled as an
amount in cents; `created_at` is opaque as in `Affiliate`. -/
structure Order where
  id : Nat
  client : Option String
  total : Option Nat
  ip_address : Option String
  affiliate_token : Option String
  created_at : Nat
  notified : Bool
deriving DecidableEq

namespace DatabaseService

/-- Embedding of `DatabaseService.create_affiliate`: an `IntegrityError` is
caught, logged as a warning and turned into `None`; any other connector
`Error` is caught, logged and turned into `None`; an exception outside the
connector hierarchy leaks. -/
def create_affiliate (phone_number token : String) (res : DbOutcome Nat) :
    Except String (Option Nat) :=
  match res with
  | .ok i => .ok (some i)
  | .integrityError _ => .ok none
  | .dbError _ => .ok none
  | .exc e => .error e

/-- Embedding of `DatabaseService.get_affiliate_by_phone`: connector errors
are caught and turned into `None`; other exceptions leak. -/
def get_affiliate_by_phone (phone_number : String)
    (res : DbOutcome (Option Affiliate)) : Except String (Option Affiliate) :=
  match res with
  | .ok r => .ok r
  | .integrityError _ => .ok none
  | .dbError _ => .ok none
  | .exc e => .error e

/-- Embedding of `DatabaseService.get_affiliate_by_token`: connector errors
are caught and turned into `None`; other exceptions leak. -/
def get_affiliate_by_token (token : String)
    (res : DbOutcome (Option Affiliate)) : Except String (Option Affiliate) :=
  match res with
  | .ok r => .ok r
  | .integrityError _ => .ok none
  | .dbError _ => .ok none
  | .exc e => .error e

/-- Embedding of `DatabaseService.get_unnotified_orders`: connector errors
are caught, logged and turned into an empty list; other exceptions leak. -/
def get_unnotified_orders (res : DbOutcome (List Order)) :
    Except String (List Order) :=
  match res with
  | .ok l => .ok l
  | .integrityError _ => .ok []
  | .dbError _ => .ok []
  | .exc e => .error e

/-- Embedding of `DatabaseService.mark_order_as_notified`: returns `true` on
a committed update, `false` when a connector `Error` was caught (the update
is rolled back, so the `notified` flag stays false); other exceptions
leak. -/
def mark_order_as_notified (order_id : Nat) (res : DbOutcome Unit) :
    Except String Bool :=
  match res with
  | .ok _ => .ok true
  | .integrityError _ => .ok false
  | .dbError _ => .ok false
  | .exc e => .error e

/-- Modelled from the spec: `save_api_key` is invoked by the conversation
engine (src/services/message_handler.py line 192) but is absent from the
`DatabaseService` class in src.  Section 6 of the spec describes the missing
persistence capability as "credential/merchant-code/token writes keyed by a
generated credential id" and section 4.4 as a fallible write: it returns the
generated credential id, or `None` on persistence failure, with an
unclassified exception leaking as in the other wrappers. -/
def save_api_key (api_key : String) (res : DbOutcome Nat) :
    Except String (Option Nat) :=
  match res with
  | .ok i => .ok (some i)
  | .integrityError _ => .ok none
  | .dbError _ => .ok none
  | .exc e => .error e

/-- Modelled from the spec: `save_merchant_code` is invoked by the
conversation engine (message_handler.py line 240) but is absent from the
`DatabaseService` class in src.  Per spec sections 4.4 and 6 it persists the
merchant code against the credential id and reports success as a boolean,
with an unclassified exception leaking. -/
def save_merchant_code (key_id : Nat) (merchant_code : String)
    (res : DbOutcome Unit) : Except String Bool :=
  match res with
  | .ok _ => .ok true
  | .integrityError _ => .ok false
  | .dbError _ => .ok false
  | .exc e => .error e

/-- Modelled from the spec: `save_token` is invoked by the conversation
engine (message_handler.py line 255) but is absent from the
`DatabaseService` class in src.  Per spec sections 4.4 and 6 it persists the
generated registration token against the credential id and reports success
as a boolean, with an unclassified exception leaking. -/
def save_token (key_id : Nat) (token : String) (res : DbOutcome Unit) :
    Except String Bool :=
  match res with
  | .ok _ => .ok true
  | .integrityError _ => .ok false
  | .dbError _ => .ok false
  | .exc e => .error e

end DatabaseService

namespace SignalService

/-- Embedding of the retry loop of `SignalService.send_message`.  The
argument list enumerates the remaining attempt indices (the Python loop runs
over `range(max_retries)`); `results i` tells whether transport attempt `i`
returns exit status 0 (a timeout or an in-attempt exception counts as a
failed attempt, exactly as in the source).  The value is the triple
(returned boolean, number of transport invocations, list of backoff waits
actually slept, in order). -/
def send_message_go (results : Nat → Bool) (max_retries : Nat) :
    List Nat → Bool × Nat × List Nat
  | [] => (false, 0, [])
  | attempt :: rest =>
    if results attempt then
      (true, 1, [])
    else
      let r := send_message_go results max_retries rest
      if attempt < max_retries - 1 then
        (r.1, r.2.1 + 1, 2 ^ attempt :: r.2.2)
      else
        (r.1, r.2.1 + 1, r.2.2)

/-- Embedding of `SignalService.send_message` (src/services/signal_service.py
lines 15-52): up to `max_retries` transport attempts, sleeping
`2 ^ attempt` seconds after failed attempt `attempt` except after the last
one, returning `true` on the first success and `false` once all attempts are
exhausted. -/
def send_message (results : Nat → Bool) (max_retries : Nat) :
    Bool × Nat × List Nat :=
  send_message_go results max_retries (List.range max_retries)

/-- Outcome of the one `subprocess.run` call made by `receive_messages`:
a completed process with its stdout (already split into lines) and exit
status, a `TimeoutExpired`, or any other exception. -/
inductive TransportResult where
  | completed (stdout_lines : List String) (returncode : Int)
  | timeoutExpired
  | exc (msg : String)

/-- Embedding of the per-line parse loop of `receive_messages`: blank lines
are skipped, each remaining line is fed to the JSON parser `parse`, parse
failures are skipped with a warning (the second component counts those
warnings), and parsed envelopes are kept in order. -/
def parse_lines {α : Type} (parse : String → Option α) :
    List String → List α × Nat
  | [] => ([], 0)
  | line :: rest =>
    let r := parse_lines parse rest
    if strip line = "" then r
    else
      match parse line with
      | some m => (m :: r.1, r.2)
      | none => (r.1, r.2 + 1)

/-- Embedding of `SignalService.receive_messages` (signal_service.py lines
54-86): a non-zero exit status, a timeout or any exception yields the empty
batch (and zero parse warnings); on success the stdout lines are parsed
individually by `parse_lines`. -/
def receive_messages {α : Type} (parse : String → Option α) :
    TransportResult → List α × Nat
  | .completed lines rc => if rc ≠ 0 then ([], 0) else parse_lines parse lines
  | .timeoutExpired => ([], 0)
  | .exc _ => ([], 0)

end SignalService

/-- Severity-tagged alert raised through the `AlertService` collaborator by
the message handler. -/
inductive Alert where
  | critical (msg : String)
  | database (msg : String)
deriving DecidableEq

/-- One outbound `signal_service.send_message` call recorded by the message
handler: recipient, text, the `is_group` flag, and the boolean the transport
returned (which the handler always discards). -/
structure SentMsg where
  recipient : String
  text : String
  is_group : Bool
  delivered : Bool
deriving DecidableEq

/-- Observable side effects of one handler run: outbound sends in order,
alerts raised through the alert service in order, and the
`mark_order_as_notified` calls made (order id, whether the update
committed). -/
structure Eff where
  sent : List SentMsg
  alerts : List Alert
  markResults : List (Nat × Bool)
deriving DecidableEq

def Eff.empty : Eff := ⟨[], [], []⟩

def Eff.append (a b : Eff) : Eff :=
  ⟨a.sent ++ b.sent, a.alerts ++ b.alerts, a.markResults ++ b.markResults⟩

instance : Append Eff := ⟨Eff.append⟩

def Eff.send1 (recipient text : String) (delivered : Bool) : Eff :=
  ⟨[⟨recipient, text, false, delivered⟩], [], []⟩

def Eff.sendGroup (group text : String) (delivered : Bool) : Eff :=
  ⟨[⟨group, text, true, delivered⟩], [], []⟩

def Eff.alertCritical (msg : String) : Eff := ⟨[], [.critical msg], []⟩

def Eff.alertDatabase (msg : String) : Eff := ⟨[], [.database msg], []⟩

def Eff.mark (order_id : Nat) (success : Bool) : Eff :=
  ⟨[], [], [(order_id, success)]⟩

/-- Per-sender map, modelling the Python dictionaries keyed by sender. -/
abbrev SMap (α : Type) : Type := String → Option α

def SMap.setk {α : Type} (m : SMap α) (k : String) (v : α) : SMap α :=
  fun q => if q = k then some v else m q

def SMap.popk {α : Type} (m : SMap α) (k : String) : SMap α :=
  fun q => if q = k then none else m q

def SMap.emp {α : Type} : SMap α := fun _ => none

/-- Scratch record stored in `MessageHandler.api_key_temp_data`. -/
structure TempData where
  key_id : Nat
  key : String
deriving DecidableEq

/-- Mutable state of `MessageHandler`: the per-sender conversation state
strings and the per-sender scratch data. -/
structure HState where
  api_key_registration_state : SMap String
  api_key_temp_data : SMap TempData

def HState.empty : HState := ⟨SMap.emp, SMap.emp⟩

/-- Configuration and collaborator functions injected into the handler:
the relevant `settings` values and the template manager, whose
`format_message` never raises (it catches formatting errors internally and
returns an inline error string). -/
structure Ctx where
  ADMIN_PHONE_NUMBER : String
  SIGNAL_GROUP_ID : String
  AFFILIATE_LINK : String
  fmt : String → List (String × String) → String

/-- Oracle results for the external calls one inbound message can trigger:
database call outcomes, the `generate_token` output, the two
`format_datetime` strings, and the boolean returned by each transport
send made while handling this message. -/
structure MsgOracle where
  get_affiliate_by_phone_res : DbOutcome (Option Affiliate)
  create_affiliate_res : DbOutcome Nat
  save_api_key_res : DbOutcome Nat
  save_merchant_code_res : DbOutcome Unit
  save_token_res : DbOutcome Unit
  token : String
  time_str : String
  date_str : String
  send_ok : Bool

/-- Inbound message as consumed by `_process_single_message`:
`source` from the envelope and the `message` field of `dataMessage`
(`none` when the envelope carries no `dataMessage`). -/
structure InMsg where
  source : Option String
  dataMessage : Option String
deriving DecidableEq

namespace MessageHandler

open DatabaseService

/-- Clear both per-sender maps, as the `except` clauses of the flow handlers
do. -/
def clearBoth (st : HState) (sender : String) : HState :=
  ⟨st.api_key_registration_state.popk sender, st.api_key_temp_data.popk sender⟩

/-- Embedding of `_handle_affiliate_registration` (message_handler.py lines
63-109).  The two fallible calls are the affiliate lookup and the affiliate
insert; an exception leaking from either is caught by the `except` clause
and raised as a critical alert.  No send precedes either fallible call, so
the exception branches carry no sends. -/
def handle_affiliate_registration (ctx : Ctx) (o : MsgOracle)
    (phone_number : String) : Eff :=
  match get_affiliate_by_phone phone_number o.get_affiliate_by_phone_res with
  | .error e => Eff.alertCritical ("Affiliate registration error: " ++ e)
  | .ok (some existing_affiliate) =>
    let message := ctx.fmt "affiliate_already_registered"
      [("link", ctx.AFFILIATE_LINK), ("token", existing_affiliate.token)]
    Eff.send1 phone_number message o.send_ok
  | .ok none =>
    let token := o.token
    match create_affiliate phone_number token o.create_affiliate_res with
    | .error e => Eff.alertCritical ("Affiliate registration error: " ++ e)
    | .ok (some _) =>
      let message := ctx.fmt "affiliate_registration_success"
        [("link", ctx.AFFILIATE_LINK), ("token", token)]
      let owner_message := ctx.fmt "new_affiliate_owner"
        [("time", o.time_str), ("date", o.date_str),
         ("phone", phone_number), ("token", token)]
      Eff.send1 phone_number message o.send_ok ++
        Eff.sendGroup ctx.SIGNAL_GROUP_ID owner_message o.send_ok
    | .ok none =>
      Eff.empty

/-- Embedding of `_handle_api_key_registration_start` (lines 155-169): set
the sender state to `waiting_for_api_key` and prompt for the key.  The
`except` clause of the source is dead here because both operations are
total; note that the scratch data is NOT cleared. -/
def handle_api_key_registration_start (st : HState) (o : MsgOracle)
    (sender : String) : HState × Eff :=
  let st := { st with api_key_registration_state :=
    st.api_key_registration_state.setk sender "waiting_for_api_key" }
  (st, Eff.send1 sender
    "Okay, you want to register a new API key. Please enter the new key."
    o.send_ok)

/-- Embedding of `_handle_api_key_input` (lines 188-222).  The one fallible
call is `save_api_key`; an exception leaking from it reaches the `except`
clause, which raises a critical alert and clears both maps.  When the save
returns `None` the source pops only the conversation state, not the scratch
data. -/
def handle_api_key_input (st : HState) (o : MsgOracle)
    (sender api_key : String) : HState × Eff :=
  match save_api_key api_key o.save_api_key_res with
  | .error e =>
    (clearBoth st sender, Eff.alertCritical ("API key input error: " ++ e))
  | .ok none =>
    ({ st with api_key_registration_state :=
        st.api_key_registration_state.popk sender },
     Eff.send1 sender
       "Error saving API key to database. Please try again." o.send_ok)
  | .ok (some kid) =>
    let st := { st with api_key_temp_data :=
      st.api_key_temp_data.setk sender ⟨kid, api_key⟩ }
    let st := { st with api_key_registration_state :=
      st.api_key_registration_state.setk sender "waiting_for_merchant_code" }
    (st, Eff.send1 sender
      "Key saved, please now enter merchant code." o.send_ok)

/-- Embedding of `_handle_merchant_code_input` (lines 224-281).  The
fallible calls are `save_merchant_code` and `save_token`; an exception
leaking from either reaches the `except` clause, which raises a critical
alert and clears both maps.  When the scratch data is missing the source
pops only the conversation state; every other terminal branch clears both
maps. -/
def handle_merchant_code_input (st : HState) (o : MsgOracle)
    (sender merchant_code : String) : HState × Eff :=
  match st.api_key_temp_data sender with
  | none =>
    ({ st with api_key_registration_state :=
        st.api_key_registration_state.popk sender },
     Eff.send1 sender
       "Registration session expired. Please start over." o.send_ok)
  | some temp_data =>
    match save_merchant_code temp_data.key_id merchant_code
        o.save_merchant_code_res with
    | .error e =>
      (clearBoth st sender,
       Eff.alertCritical ("Merchant code input error: " ++ e))
    | .ok false =>
      (clearBoth st sender,
       Eff.send1 sender
         "Error saving merchant code to database. Please try again." o.send_ok)
    | .ok true =>
      let token := o.token
      match save_token temp_data.key_id token o.save_token_res with
      | .error e =>
        (clearBoth st sender,
         Eff.alertCritical ("Merchant code input error: " ++ e))
      | .ok false =>
        (clearBoth st sender,
         Eff.send1 sender
           "Error saving token to database. Please try again." o.send_ok)
      | .ok true =>
        (clearBoth st sender,
         Eff.send1 sender
           ("API key registration completed successfully! Token: " ++ token)
           o.send_ok)

/-- Embedding of `_handle_api_key_registration_step` (lines 171-186): look
up the sender state and dispatch.  The `except` clause of the source is dead
because both sub-handlers catch every exception themselves. -/
def handle_api_key_registration_step (st : HState) (o : MsgOracle)
    (sender message : String) : HState × Eff :=
  match st.api_key_registration_state sender with
  | some state =>
    if state = "waiting_for_api_key" then
      handle_api_key_input st o sender message
    else if state = "waiting_for_merchant_code" then
      handle_merchant_code_input st o sender message
    else
      (st, Eff.empty)
  | none => (st, Eff.empty)

/-- Embedding of `_process_single_message` (lines 32-61): unwrap the
envelope, drop messages with no `dataMessage`, empty body or falsy sender,
then classify in source order: case-insensitive "go", the admin-only
"New API key" trigger, an active conversation state, otherwise ignore. -/
def process_single_message (ctx : Ctx) (o : MsgOracle) (st : HState)
    (msg : InMsg) : HState × Eff :=
  match msg.dataMessage with
  | none => (st, Eff.empty)
  | some raw =>
    let body := strip raw
    match msg.source with
    | none => (st, Eff.empty)
    | some sender =>
      if body = "" ∨ sender = "" then (st, Eff.empty)
      else if lower body = "go" then
        (st, handle_affiliate_registration ctx o sender)
      else if body = "New API key" ∧ sender = ctx.ADMIN_PHONE_NUMBER then
        handle_api_key_registration_start st o sender
      else if (st.api_key_registration_state sender).isSome then
        handle_api_key_registration_step st o sender body
      else
        (st, Eff.empty)

/-- Embedding of `process_received_messages`: fold the single-message
handler over the batch in arrival order, accumulating effects.  The
per-message `except` clause of the source is dead because
`process_single_message` catches every exception internally. -/
def process_messages (ctx : Ctx) (st : HState) :
    List (MsgOracle × InMsg) → HState × Eff
  | [] => (st, Eff.empty)
  | (o, m) :: rest =>
    let r1 := process_single_message ctx o st m
    let r2 := process_messages ctx r1.1 rest
    (r2.1, r1.2 ++ r2.2)

end MessageHandler

namespace MessageHandler

open DatabaseService

/-- Python truthiness of an optional string: `None` and the empty string are
falsy (`if order.affiliate_token:` and `order.client or "N/A"`). -/
def truthy : Option String → Option String
  | none => none
  | some s => if s = "" then none else some s

/-- Embedding of `order.client or "N/A"` and `order.ip_address or "N/A"`. -/
def orNA (s : Option String) : String :=
  match truthy s with
  | some t => t
  | none => "N/A"

/-- Two-digit zero-padded rendering of the cent part. -/
def two_digits (n : Nat) : String :=
  if n < 10 then "0" ++ toString n else toString n

/-- Embedding of the total field of `order_data`:
`f"{order.total:.2f}€" if order.total else "N/A"`, with the `Decimal`
modelled as cents; a zero total is falsy in Python and also renders as
"N/A". -/
def format_total : Option Nat → String
  | none => "N/A"
  | some c =>
    if c = 0 then "N/A"
    else toString (c / 100) ++ "." ++ two_digits (c % 100) ++ "€"

/-- Oracle results for the external calls made while processing one order:
the affiliate lookup outcome, the mark-as-notified outcome, the two
`format_datetime` strings, and the booleans returned by the owner and
affiliate transport sends (both discarded by the handler). -/
structure OrderOracle where
  get_affiliate_by_token_res : DbOutcome (Option Affiliate)
  mark_res : DbOutcome Unit
  time_str : String
  date_str : String
  send_owner_ok : Bool
  send_affiliate_ok : Bool

/-- The shared `order_data` keyword arguments of `_process_single_order`. -/
def order_data (o : OrderOracle) (order : Order) : List (String × String) :=
  [("time", o.time_str), ("date", o.date_str),
   ("total", format_total order.total), ("client", orNA order.client),
   ("ip", orNA order.ip_address)]

/-- Embedding of `_process_single_order` (message_handler.py lines 123-153).
The owner send always happens first; because sends are real side effects
that precede the fallible calls, the `except` clause keeps the sends already
made and appends the critical alert.  The boolean returned by each send is
recorded but never branched on. -/
def process_single_order (ctx : Ctx) (o : OrderOracle) (order : Order) :
    Eff :=
  let data := order_data o order
  let owner_message := ctx.fmt "new_order_owner" data
  let e1 := Eff.sendGroup ctx.SIGNAL_GROUP_ID owner_message o.send_owner_ok
  let exceptClause := fun (acc : Eff) (err : String) =>
    acc ++ Eff.alertCritical
      ("Order " ++ toString order.id ++ " processing error: " ++ err)
  match truthy order.affiliate_token with
  | some tok =>
    match get_affiliate_by_token tok o.get_affiliate_by_token_res with
    | .error err => exceptClause e1 err
    | .ok aff =>
      let e2 :=
        match aff with
        | some affiliate =>
          Eff.send1 affiliate.phone_number (ctx.fmt "new_order_affiliate" data)
            o.send_affiliate_ok
        | none => Eff.empty
      match mark_order_as_notified order.id o.mark_res with
      | .error err => exceptClause (e1 ++ e2) err
      | .ok success => e1 ++ e2 ++ Eff.mark order.id success
  | none =>
    match mark_order_as_notified order.id o.mark_res with
    | .error err => exceptClause e1 err
    | .ok success => e1 ++ Eff.mark order.id success

/-- Concatenation of effect records in order. -/
def Eff.concat : List Eff → Eff
  | [] => Eff.empty
  | e :: rest => e ++ Eff.concat rest

/-- Embedding of `process_new_orders` (lines 111-121): fetch the unnotified
batch through `get_unnotified_orders`; a leaked exception raises a
database-category alert and processes nothing, otherwise each fetched order
is processed in order with its own oracle. -/
def process_new_orders (ctx : Ctx) (fetch : DbOutcome (List Order))
    (oracleFor : Order → OrderOracle) : Eff :=
  match get_unnotified_orders fetch with
  | .error e => Eff.alertDatabase ("Order processing error: " ++ e)
  | .ok orders => Eff.concat (orders.map fun ord =>
      process_single_order ctx (oracleFor ord) ord)

end MessageHandler

/-- Webhook configuration drawn from `settings`
(src/services/webhook_service.py constructor). -/
structure WebhookCfg where
  enabled : Bool
  webhook_url : Option String
  timeout : Nat
  max_retries : Nat

/-- Outcome of one `requests.post` attempt inside `send_webhook`: an HTTP
response with its status code, a `RequestException` (caught, with backoff),
or any other exception (not caught by the loop, leaks to the caller). -/
inductive HttpAttempt where
  | status (code : Nat) (body : String)
  | requestExc (msg : String)
  | otherExc (msg : String)

/-- Result of the retry loop of `send_webhook`: it either runs to completion
with a success boolean and the number of HTTP attempts made, or an attempt
raises a non-`RequestException` after some attempts were already made. -/
inductive WebhookResult where
  | done (success : Bool) (attempts_made : Nat)
  | raised (msg : String) (attempts_made : Nat)
deriving DecidableEq

namespace WebhookService

/-- Embedding of the retry loop of `send_webhook` (webhook_service.py lines
24-45): status 200 returns `true` immediately, any other status logs a
warning and retries with no sleep, a `RequestException` logs and sleeps
`2 ^ attempt` before the next attempt, and any other exception leaks. -/
def send_webhook_go (attempts : Nat → HttpAttempt) : List Nat → WebhookResult
  | [] => .done false 0
  | attempt :: rest =>
    match attempts attempt with
    | .status 200 _ => .done true 1
    | .status _ _ =>
      match send_webhook_go attempts rest with
      | .done s n => .done s (n + 1)
      | .raised e n => .raised e (n + 1)
    | .requestExc _ =>
      match send_webhook_go attempts rest with
      | .done s n => .done s (n + 1)
      | .raised e n => .raised e (n + 1)
    | .otherExc e => .raised e 1

/-- Embedding of `WebhookService.send_webhook` (lines 17-48): a disabled
webhook or a falsy URL returns `false` without any HTTP attempt; otherwise
the retry loop runs over `range(max_retries)`. -/
def send_webhook (cfg : WebhookCfg) (attempts : Nat → HttpAttempt)
    (message alert_type : String) : WebhookResult :=
  if !cfg.enabled ∨ MessageHandler.truthy cfg.webhook_url = none then
    .done false 0
  else
    send_webhook_go attempts (List.range cfg.max_retries)

end WebhookService

/-- Delivery channels attempted by `send_system_alert`, in order. -/
inductive Channel where
  | primaryChat (recipient : String)
  | webhookPost
deriving DecidableEq

/-- Observable outcome of one `send_system_alert` call: the channels
attempted in order, the number of webhook HTTP attempts, and the entries
written to the high-severity `critical` log sink. -/
structure AlertEffects where
  channel_trace : List Channel
  webhook_http_attempts : Nat
  critical_logs : List String
deriving DecidableEq

namespace AlertService

/-- Embedding of `AlertService.send_system_alert` (alert_service.py lines
16-36).  The primary channel is `signal_service.send_alert`, a send to the
admin identity whose boolean result is `signal_ok` (that call catches every
exception internally and cannot raise).  Template formatting cannot raise
either.  The only fallible call inside the `try` body is the webhook send,
whose leaked exception is caught by the `except` clause and written to the
critical log together with the original message text.  The function itself
is total: it never propagates an exception to its caller. -/
def send_system_alert (admin : String) (cfg : WebhookCfg)
    (fmt : String → List (String × String) → String) (signal_ok : Bool)
    (attempts : Nat → HttpAttempt) (message alert_type : String) :
    AlertEffects :=
  let primary := [Channel.primaryChat admin]
  if signal_ok then
    ⟨primary, 0, []⟩
  else
    let log1 := "Failed to send Signal alert: " ++ message
    let webhook_message := fmt "webhook_alert" [("message", message)]
    match WebhookService.send_webhook cfg attempts webhook_message alert_type with
    | .done true n =>
      ⟨primary ++ List.replicate n .webhookPost, n, [log1]⟩
    | .done false n =>
      ⟨primary ++ List.replicate n .webhookPost, n,
       [log1, "Both Signal and webhook alerts failed: " ++ message]⟩
    | .raised e n =>
      ⟨primary ++ List.replicate n .webhookPost, n,
       [log1, "Alert service error: " ++ e ++ " - Original message: " ++ message]⟩

end AlertService

/-- True when the database call leaked an exception outside the connector
`Error` hierarchy (the only case the `DatabaseService` wrappers do not
catch). -/
def DbOutcome.leaks {α : Type} : DbOutcome α → Bool
  | .exc _ => true
  | _ => false

/-- Number of HTTP attempts recorded in a webhook loop result. -/
def WebhookResult.attemptCount : WebhookResult → Nat
  | .done _ n => n
  | .raised _ n => n

/-- The conversation-store invariant of the engine: scratch data for a
sender exists only while that sender is in state
`waiting_for_merchant_code`. -/
def Inv (st : HState) : Prop :=
  ∀ s, (st.api_key_temp_data s).isSome →
    st.api_key_registration_state s = some "waiting_for_merchant_code"

/-- Fixture for witnesses and counterexamples: a concrete configuration
whose template manager returns the template key itself. -/
def ctx0 : Ctx := ⟨"ADMIN", "GROUP", "LINK", fun k _ => k⟩

/-- Fixture: message oracle in which every database call succeeds. -/
def oracle_ok : MsgOracle :=
  ⟨.ok none, .ok 5, .ok 7, .ok (), .ok (), "TOK123", "t", "d", true⟩

/-- Fixture: message oracle whose affiliate insert fails with a database
error that is not a unique-constraint violation. -/
def oracle_db_fail : MsgOracle :=
  ⟨.ok none, .dbError "disk full", .ok 0, .ok (), .ok (), "TOK", "t", "d", true⟩

/-- Fixture: an unnotified order carrying an affiliate token. -/
def ord1 : Order := ⟨1, some "alice", some 1999, some "1.2.3.4", some "T1", 0, false⟩

/-- Fixture: an active affiliate bound to the token of `ord1`. -/
def aff1 : Affiliate := ⟨3, "AFFPHONE", "T1", 0, true⟩

/-- Fixture: order oracle in which both sends succeed but the
mark-as-notified update fails with a database error. -/
def oo_markfail : MessageHandler.OrderOracle :=
  ⟨.ok (some aff1), .dbError "deadlock", "t", "d", true, true⟩

/-- Fixture: order oracle in which every database call succeeds. -/
def oo_ok : MessageHandler.OrderOracle :=
  ⟨.ok (some aff1), .ok (), "t", "d", true, true⟩

/-- Fixture: order oracle in which every delivery send reports failure and
every database call succeeds. -/
def oo_sends_fail : MessageHandler.OrderOracle :=
  ⟨.ok (some aff1), .ok (), "t", "d", false, false⟩

/-- Fixture: webhook configuration, enabled with a URL and 3 retries. -/
def cfg0 : WebhookCfg := ⟨true, some "http://hook.example", 10, 3⟩

theorem Eff.append_def (a b : Eff) : a ++ b =
    ⟨a.sent ++ b.sent, a.alerts ++ b.alerts, a.markResults ++ b.markResults⟩ :=
  rfl

/-- A string that does not start with the character of the confirmation
message differs from every instance of the confirmation message. -/
theorem ne_confirmation_of_head (s t : String)
    (h : s.data.head? ≠ some 'A') :
    s ≠ "API key registration completed successfully! Token: " ++ t := by
  intro he
  obtain ⟨d⟩ := t
  apply h
  rw [he]
  rfl

namespace MessageHandler

/-- Dispatch: a non-empty body whose lower-cased form is "go" always routes
to the affiliate-registration flow. -/
theorem process_single_message_go (ctx : Ctx) (o : MsgOracle) (st : HState)
    (raw sender : String) (hbody : lower (strip raw) = "go")
    (hne : strip raw ≠ "") (hs : sender ≠ "") :
    process_single_message ctx o st ⟨some sender, some raw⟩ =
      (st, handle_affiliate_registration ctx o sender) := by
  simp [process_single_message, hbody, hne, hs]

/-- Dispatch: a body "New API key" from the admin sender starts the
credential flow (or is dropped when the admin identity is the empty
string, which the body/sender guard treats as falsy). -/
theorem process_single_message_new_api_key (ctx : Ctx) (o : MsgOracle)
    (st : HState) (raw : String) (hbody : strip raw = "New API key") :
    process_single_message ctx o st
        ⟨some ctx.ADMIN_PHONE_NUMBER, some raw⟩ =
      if ctx.ADMIN_PHONE_NUMBER = "" then (st, Eff.empty)
      else handle_api_key_registration_start st o ctx.ADMIN_PHONE_NUMBER := by
  have h1 : lower "New API key" ≠ "go" := by decide
  have h2 : "New API key" ≠ "" := by decide
  by_cases hs : ctx.ADMIN_PHONE_NUMBER = "" <;>
    simp [process_single_message, hbody, h1, h2, hs]

/-- Dispatch: when neither trigger matches and the sender has an active
conversation state, the flow-step handler receives the body. -/
theorem process_single_message_continue (ctx : Ctx) (o : MsgOracle)
    (st : HState) (raw sender : String)
    (h1 : lower (strip raw) ≠ "go")
    (h2 : ¬(strip raw = "New API key" ∧ sender = ctx.ADMIN_PHONE_NUMBER))
    (h3 : (st.api_key_registration_state sender).isSome)
    (hne : strip raw ≠ "") (hs : sender ≠ "") :
    process_single_message ctx o st ⟨some sender, some raw⟩ =
      handle_api_key_registration_step st o sender (strip raw) := by
  simp [process_single_message, h1, h2, h3, hne, hs]

/-- Dispatch: when nothing matches the message is dropped with no reply, no
alert, no mark and no state change. -/
theorem process_single_message_ignored (ctx : Ctx) (o : MsgOracle)
    (st : HState) (raw sender : String)
    (h1 : lower (strip raw) ≠ "go")
    (h2 : ¬(strip raw = "New API key" ∧ sender = ctx.ADMIN_PHONE_NUMBER))
    (h3 : st.api_key_registration_state sender = none)
    (hne : strip raw ≠ "") (hs : sender ≠ "") :
    process_single_message ctx o st ⟨some sender, some raw⟩ =
      (st, Eff.empty) := by
  simp [process_single_message, h1, h2, h3, hne, hs]

/-- Clearing both per-sender maps preserves the store invariant. -/
theorem clearBoth_inv (st : HState) (sender : String) (h : Inv st) :
    Inv (clearBoth st sender) := by
  intro s hs
  rcases eq_or_ne s sender with rfl | hne
  · simp [clearBoth, SMap.popk] at hs
  · simp only [clearBoth, SMap.popk, if_neg hne] at hs ⊢
    exact h s hs

end MessageHandler

namespace SignalService

theorem send_message_go_nil (results : Nat → Bool) (max_retries : Nat) :
    send_message_go results max_retries [] = (false, 0, []) := rfl

theorem send_message_go_cons_hit (results : Nat → Bool)
    (max_retries attempt : Nat) (rest : List Nat)
    (h : results attempt = true) :
    send_message_go results max_retries (attempt :: rest) = (true, 1, []) := by
  simp [send_message_go, h]

theorem send_message_go_cons_wait (results : Nat → Bool)
    (max_retries attempt : Nat) (rest : List Nat)
    (h : results attempt = false) (hl : attempt < max_retries - 1) :
    send_message_go results max_retries (attempt :: rest) =
      ((send_message_go results max_retries rest).1,
       (send_message_go results max_retries rest).2.1 + 1,
       2 ^ attempt :: (send_message_go results max_retries rest).2.2) := by
  simp [send_message_go, h, hl]

theorem send_message_go_cons_last (results : Nat → Bool)
    (max_retries attempt : Nat) (rest : List Nat)
    (h : results attempt = false) (hl : ¬attempt < max_retries - 1) :
    send_message_go results max_retries (attempt :: rest) =
      ((send_message_go results max_retries rest).1,
       (send_message_go results max_retries rest).2.1 + 1,
       (send_message_go results max_retries rest).2.2) := by
  simp [send_message_go, h, hl]

/-- Full characterisation of the retry loop over the attempt indices
`a, a+1, ..., a+n-1` with `max_retries = a + n`: the invocation count is at
most `n`, the waits slept are exactly `2^a, ..., 2^(a+c-2)` where `c` is the
invocation count, the loop returns true exactly when some attempt in range
succeeds, every attempt before the last invoked one failed, on success the
last invoked attempt succeeded, and on failure all `n` attempts were
invoked. -/
theorem send_message_go_spec (results : Nat → Bool) :
    ∀ (n a max_retries : Nat), max_retries = a + n →
    (send_message_go results max_retries (List.range' a n)).2.1 ≤ n ∧
    (send_message_go results max_retries (List.range' a n)).2.2 =
      (List.range' a ((send_message_go results max_retries (List.range' a n)).2.1 - 1)).map
        (fun i => 2 ^ i) ∧
    ((send_message_go results max_retries (List.range' a n)).1 = true ↔
      ∃ j, j < n ∧ results (a + j) = true) ∧
    (∀ j, j + 1 < (send_message_go results max_retries (List.range' a n)).2.1 →
      results (a + j) = false) ∧
    ((send_message_go results max_retries (List.range' a n)).1 = true →
      1 ≤ (send_message_go results max_retries (List.range' a n)).2.1 ∧
      results (a + ((send_message_go results max_retries (List.range' a n)).2.1 - 1)) = true) ∧
    ((send_message_go results max_retries (List.range' a n)).1 = false →
      (send_message_go results max_retries (List.range' a n)).2.1 = n) := by
  intro n
  induction n with
  | zero =>
    intro a max_retries hmax
    rw [show List.range' a 0 = [] from rfl, send_message_go_nil]
    dsimp only []
    refine ⟨by omega, by simp [List.range'], ?_, ?_, ?_, ?_⟩
    · simp
    · intro j hj; omega
    · intro hs; cases hs
    · intro _; rfl
  | succ m ih =>
    intro a max_retries hmax
    rw [List.range'_succ a m 1]
    cases hres : results a with
    | true =>
      rw [send_message_go_cons_hit results max_retries a _ hres]
      dsimp only []
      refine ⟨by omega, by simp [List.range'], ?_, ?_, ?_, ?_⟩
      · exact ⟨fun _ => ⟨0, by omega, by simpa using hres⟩, fun _ => rfl⟩
      · intro j hj; omega
      · intro _; exact ⟨le_refl 1, by simpa using hres⟩
      · intro hfalse; cases hfalse
    | false =>
      obtain ⟨ihA, ihB, ihC, ihD, ihE, ihF⟩ := ih (a + 1) max_retries (by omega)
      have hrc : 1 ≤ (send_message_go results max_retries (List.range' (a + 1) m)).2.1 ∨ m = 0 := by
        cases hs : (send_message_go results max_retries (List.range' (a + 1) m)).1 with
        | true => exact Or.inl (ihE hs).1
        | false =>
          rcases Nat.eq_zero_or_pos m with hm0 | hmpos
          · exact Or.inr hm0
          · exact Or.inl (by have := ihF hs; omega)
      by_cases hlast : a < max_retries - 1
      · have hm1 : 1 ≤ m := by omega
        have hrc1 : 1 ≤ (send_message_go results max_retries (List.range' (a + 1) m)).2.1 := by
          rcases hrc with h | h
          · exact h
          · omega
        rw [send_message_go_cons_wait results max_retries a _ hres hlast]
        dsimp only []
        refine ⟨by omega, ?_, ?_, ?_, ?_, ?_⟩
        · rw [ihB, Nat.add_sub_cancel,
            show (send_message_go results max_retries (List.range' (a + 1) m)).2.1 =
              ((send_message_go results max_retries (List.range' (a + 1) m)).2.1 - 1) + 1 by omega,
            List.range'_succ a _ 1]
          simp only [List.map_cons, Nat.add_sub_cancel]
        · rw [ihC]
          constructor
          · intro ⟨j, hj, hjr⟩
            exact ⟨j + 1, by omega, by rw [show a + (j + 1) = a + 1 + j by omega]; exact hjr⟩
          · intro ⟨j, hj, hjr⟩
            cases j with
            | zero => rw [Nat.add_zero] at hjr; rw [hjr] at hres; cases hres
            | succ j' =>
              exact ⟨j', by omega, by rw [show a + 1 + j' = a + (j' + 1) by omega]; exact hjr⟩
        · intro j hj
          cases j with
          | zero => simpa using hres
          | succ j' =>
            rw [show a + (j' + 1) = a + 1 + j' by omega]
            exact ihD j' (by omega)
        · intro hs
          have := ihE hs
          refine ⟨by omega, ?_⟩
          rw [show a + ((send_message_go results max_retries (List.range' (a + 1) m)).2.1 + 1 - 1)
            = a + 1 + ((send_message_go results max_retries (List.range' (a + 1) m)).2.1 - 1) by omega]
          exact this.2
        · intro hs
          have := ihF hs
          omega
      · have hm0 : m = 0 := by omega
        subst hm0
        rw [show List.range' (a + 1) 0 = [] from rfl,
          send_message_go_cons_last results max_retries a _ hres hlast,
          send_message_go_nil]
        dsimp only []
        refine ⟨by omega, by simp [List.range'], ?_, ?_, ?_, ?_⟩
        · constructor
          · intro hfalse; cases hfalse
          · intro ⟨j, hj, hjr⟩
            interval_cases j
            rw [Nat.add_zero] at hjr; rw [hjr] at hres; cases hres
        · intro j hj
          omega
        · intro hs; cases hs
        · intro _; rfl

/-- Per-line parse loop of `receive_messages`: the parsed batch is exactly
the well-formed non-blank lines in order, and the warning count is the
number of non-blank lines the parser rejects. -/
theorem parse_lines_spec {α : Type} (parse : String → Option α)
    (lines : List String) :
    (parse_lines parse lines).1 =
      (lines.filter fun l => decide (strip l ≠ "")).filterMap parse ∧
    (parse_lines parse lines).2 =
      ((lines.filter fun l => decide (strip l ≠ "")).filter
        fun l => (parse l).isNone).length := by
  induction lines with
  | nil => exact ⟨rfl, rfl⟩
  | cons line rest ih =>
    obtain ⟨ih1, ih2⟩ := ih
    by_cases hb : strip line = ""
    · simp [parse_lines, hb, ih1, ih2]
    · cases hp : parse line with
      | none => simp [parse_lines, hb, hp, ih1, ih2]
      | some m => simp [parse_lines, hb, hp, ih1, ih2]

end SignalService

open MessageHandler SignalService

/-- C6: for every call to `send_message` the transport is invoked at most
`max_retries` times; the waits slept between consecutive attempts are
exactly `2^0, 2^1, ...` (0-based attempt indices, strictly doubling), there
is no wait after the final attempt (the wait list is one shorter than the
invocation count); the call returns true exactly when some attempt within
the bound succeeds, every attempt before the last invoked one failed (so it
returns as soon as one attempt succeeds), and it returns false only after
all `max_retries` attempts are exhausted. -/
theorem claim_C6_send_retry_backoff (results : Nat → Bool) (max_retries : Nat) :
    (send_message results max_retries).2.1 ≤ max_retries ∧
    (send_message results max_retries).2.2 =
      (List.range ((send_message results max_retries).2.1 - 1)).map
        (fun i => 2 ^ i) ∧
    (send_message results max_retries).2.2.length =
      (send_message results max_retries).2.1 - 1 ∧
    ((send_message results max_retries).1 = true ↔
      ∃ i, i < max_retries ∧ results i = true) ∧
    (∀ i, i + 1 < (send_message results max_retries).2.1 →
      results i = false) ∧
    ((send_message results max_retries).1 = true →
      1 ≤ (send_message results max_retries).2.1 ∧
      results ((send_message results max_retries).2.1 - 1) = true) ∧
    ((send_message results max_retries).1 = false →
      (send_message results max_retries).2.1 = max_retries) := by
  have h := send_message_go_spec results max_retries 0 max_retries (by omega)
  simp only [Nat.zero_add] at h
  rw [← List.range_eq_range'] at h
  unfold send_message
  obtain ⟨hA, hB, hC, hD, hE, hF⟩ := h
  refine ⟨hA, ?_, ?_, hC, hD, hE, hF⟩
  · rw [hB, ← List.range_eq_range']
  · rw [hB, ← List.range_eq_range']
    simp

/-- C6 witness: with the second of three attempts succeeding, the transport
is invoked twice, one wait of 1 unit is slept, and the call returns true. -/
theorem claim_C6_send_retry_backoff_witness :
    (send_message (fun i => decide (i = 1)) 3).2.1 ≤ 3 :=
  (claim_C6_send_retry_backoff (fun i => decide (i = 1)) 3).1

/-- C7: a wholesale transport failure in `receive_messages` (timeout,
exception, or non-zero exit status) yields the empty batch instead of an
error; on a zero exit status the batch is exactly the well-formed non-blank
lines in order while each malformed line only increments the warning count;
in particular one malformed line plus one valid envelope yields exactly one
message and one warning. -/
theorem claim_C7_receive_error_isolation {α : Type} (parse : String → Option α) :
    receive_messages parse .timeoutExpired = ([], 0) ∧
    (∀ e, receive_messages parse (.exc e) = ([], 0)) ∧
    (∀ lines rc, rc ≠ 0 → receive_messages parse (.completed lines rc) = ([], 0)) ∧
    (∀ lines, receive_messages parse (.completed lines 0) =
      ((lines.filter fun l => decide (strip l ≠ "")).filterMap parse,
       ((lines.filter fun l => decide (strip l ≠ "")).filter
         fun l => (parse l).isNone).length)) ∧
    (∀ bad good m, strip bad ≠ "" → strip good ≠ "" →
      parse bad = none → parse good = some m →
      receive_messages parse (.completed [bad, good] 0) = ([m], 1)) := by
  refine ⟨rfl, fun e => rfl, ?_, ?_, ?_⟩
  · intro lines rc hrc
    simp [receive_messages, hrc]
  · intro lines
    have h := parse_lines_spec parse lines
    simp only [receive_messages, ne_eq, not_true_eq_false, if_false]
    rw [Prod.ext_iff]
    exact ⟨h.1, h.2⟩
  · intro bad good m h1 h2 h3 h4
    simp [receive_messages, parse_lines, h1, h2, h3, h4]

/-- C7 witness: the malformed-plus-valid scenario at concrete inputs. -/
theorem claim_C7_receive_error_isolation_witness :
    receive_messages (fun s => if s = "GOOD" then some 1 else none)
      (.completed ["BAD", "GOOD"] 0) = ([1], 1) :=
  (claim_C7_receive_error_isolation
      (fun s => if s = "GOOD" then some 1 else none)).2.2.2.2
    "BAD" "GOOD" 1 (by decide) (by decide) (by decide) (by decide)

/-- C1 counterexample: the claim quantifies over any credential value, but
the credential value "go" collides with the affiliate trigger, which is
checked before the conversation state: with inputs "New API key", "go",
"MC-9" from the admin no confirmation message is ever sent and the
conversation state is still present afterwards ("MC-9" was consumed as the
credential value instead). -/
theorem claim_C1_counterexample :
    (process_messages ctx0 HState.empty
        [(oracle_ok, ⟨some "ADMIN", some "New API key"⟩),
         (oracle_ok, ⟨some "ADMIN", some "go"⟩),
         (oracle_ok, ⟨some "ADMIN", some "MC-9"⟩)]).2.sent.countP
      (fun s => s.text ==
        "API key registration completed successfully! Token: " ++
          oracle_ok.token) = 0 ∧
    HState.api_key_registration_state
      (process_messages ctx0 HState.empty
        [(oracle_ok, ⟨some "ADMIN", some "New API key"⟩),
         (oracle_ok, ⟨some "ADMIN", some "go"⟩),
         (oracle_ok, ⟨some "ADMIN", some "MC-9"⟩)]).1 "ADMIN" =
      some "waiting_for_merchant_code" := by
  decide

/-- C1 amended: for any credential value and merchant code that do not
collide with the flow triggers (stripped form non-empty, not
case-insensitively "go", not "New API key"), the admin inputs
"New API key", the credential, the merchant code with succeeding credential
writes produce exactly three sends to the admin, of which exactly one is
the final confirmation message carrying the token generated in the final
step; no alert is raised and afterwards both the conversation state and the
scratch data for the admin are absent. -/
theorem claim_C1_credential_round_trip (ctx : Ctx) (o1 o2 o3 : MsgOracle)
    (key mc : String) (kid : Nat) (hA : ctx.ADMIN_PHONE_NUMBER ≠ "")
    (hk0 : strip key ≠ "") (hk1 : lower (strip key) ≠ "go")
    (hk2 : strip key ≠ "New API key")
    (hm0 : strip mc ≠ "") (hm1 : lower (strip mc) ≠ "go")
    (hm2 : strip mc ≠ "New API key")
    (h2 : o2.save_api_key_res = .ok kid)
    (h3m : o3.save_merchant_code_res = .ok ())
    (h3t : o3.save_token_res = .ok ()) :
    let r := process_messages ctx HState.empty
        [(o1, ⟨some ctx.ADMIN_PHONE_NUMBER, some "New API key"⟩),
         (o2, ⟨some ctx.ADMIN_PHONE_NUMBER, some key⟩),
         (o3, ⟨some ctx.ADMIN_PHONE_NUMBER, some mc⟩)]
    r.2.sent =
      [⟨ctx.ADMIN_PHONE_NUMBER,
        "Okay, you want to register a new API key. Please enter the new key.",
        false, o1.send_ok⟩,
       ⟨ctx.ADMIN_PHONE_NUMBER, "Key saved, please now enter merchant code.",
        false, o2.send_ok⟩,
       ⟨ctx.ADMIN_PHONE_NUMBER,
        "API key registration completed successfully! Token: " ++ o3.token,
        false, o3.send_ok⟩] ∧
    r.2.sent.countP (fun s =>
      s.text == "API key registration completed successfully! Token: " ++
        o3.token) = 1 ∧
    r.2.alerts = [] ∧
    r.1.api_key_registration_state ctx.ADMIN_PHONE_NUMBER = none ∧
    r.1.api_key_temp_data ctx.ADMIN_PHONE_NUMBER = none := by
  have e1 : strip "New API key" = "New API key" := by decide
  have e2 : lower "New API key" = "new api key" := by decide
  have n1 := ne_confirmation_of_head
    "Okay, you want to register a new API key. Please enter the new key."
    o3.token (by decide)
  have n2 := ne_confirmation_of_head
    "Key saved, please now enter merchant code." o3.token (by decide)
  simp [process_messages, process_single_message,
    handle_api_key_registration_start, handle_api_key_registration_step,
    handle_api_key_input, handle_merchant_code_input, clearBoth,
    SMap.setk, SMap.popk, HState.empty, SMap.emp,
    DatabaseService.save_api_key, DatabaseService.save_merchant_code,
    DatabaseService.save_token, Eff.send1, Eff.empty,
    e1, e2, hk0, hk1, hk2, hm0, hm1, hm2, h2, h3m, h3t, hA, n1, n2,
    Eff.append_def, List.countP_cons, List.countP_nil]

/-- C1 witness: the round trip at the concrete inputs "KEY123" and "MC-9"
leaves the admin with no conversation state. -/
theorem claim_C1_credential_round_trip_witness :
    HState.api_key_registration_state
      (process_messages ctx0 HState.empty
        [(oracle_ok, ⟨some ctx0.ADMIN_PHONE_NUMBER, some "New API key"⟩),
         (oracle_ok, ⟨some ctx0.ADMIN_PHONE_NUMBER, some "KEY123"⟩),
         (oracle_ok, ⟨some ctx0.ADMIN_PHONE_NUMBER, some "MC-9"⟩)]).1
      ctx0.ADMIN_PHONE_NUMBER = none :=
  (claim_C1_credential_round_trip ctx0 oracle_ok oracle_ok oracle_ok
    "KEY123" "MC-9" 7 (by decide) (by decide) (by decide) (by decide)
    (by decide) (by decide) (by decide) rfl rfl rfl).2.2.2.1

/-- C8: for a message with non-empty (stripped) body and non-empty sender,
classification follows the source order with first match winning:
a case-insensitive "go" routes to the affiliate flow even when the sender
is mid-conversation; "New API key" from the admin starts the credential
flow; otherwise an active conversation state is continued with the body as
input; otherwise the message produces no reply, no alert, no mark and no
state change. -/
theorem claim_C8_classification_precedence (ctx : Ctx) (o : MsgOracle)
    (st : HState) (raw sender : String)
    (hne : strip raw ≠ "") (hs : sender ≠ "") :
    (lower (strip raw) = "go" →
      process_single_message ctx o st ⟨some sender, some raw⟩ =
        (st, handle_affiliate_registration ctx o sender)) ∧
    (strip raw = "New API key" → sender = ctx.ADMIN_PHONE_NUMBER →
      process_single_message ctx o st ⟨some sender, some raw⟩ =
        handle_api_key_registration_start st o sender) ∧
    (lower (strip raw) ≠ "go" →
      ¬(strip raw = "New API key" ∧ sender = ctx.ADMIN_PHONE_NUMBER) →
      (st.api_key_registration_state sender).isSome →
      process_single_message ctx o st ⟨some sender, some raw⟩ =
        handle_api_key_registration_step st o sender (strip raw)) ∧
    (lower (strip raw) ≠ "go" →
      ¬(strip raw = "New API key" ∧ sender = ctx.ADMIN_PHONE_NUMBER) →
      st.api_key_registration_state sender = none →
      process_single_message ctx o st ⟨some sender, some raw⟩ =
        (st, Eff.empty)) := by
  refine ⟨?_, ?_, ?_, ?_⟩
  · intro hb
    exact process_single_message_go ctx o st raw sender hb hne hs
  · intro hb hsa
    subst hsa
    have h := process_single_message_new_api_key ctx o st raw hb
    rw [if_neg hs] at h
    exact h
  · intro h1 h2 h3
    exact process_single_message_continue ctx o st raw sender h1 h2 h3 hne hs
  · intro h1 h2 h3
    exact process_single_message_ignored ctx o st raw sender h1 h2 h3 hne hs

/-- C8 witness: a "Go" message (any case, surrounding whitespace) from an
unknown sender routes to the affiliate flow. -/
theorem claim_C8_classification_precedence_witness :
    process_single_message ctx0 oracle_ok HState.empty ⟨some "U1", some " Go "⟩ =
      (HState.empty, handle_affiliate_registration ctx0 oracle_ok "U1") :=
  (claim_C8_classification_precedence ctx0 oracle_ok HState.empty " Go " "U1"
    (by decide) (by decide)).1 (by decide)

/-- C10 counterexample: after "New API key", "KEY123", and a second
"New API key" from the admin, the scratch data for the admin is still the
record saved for "KEY123" while the conversation state is
`waiting_for_api_key`, so scratch data exists in a state other than
`waiting_for_merchant_code`, contradicting the claimed invariant: the
restart path (`_handle_api_key_registration_start`) is a message-processing
step that does not clear scratch data. -/
theorem claim_C10_counterexample :
    (process_messages ctx0 HState.empty
        [(oracle_ok, ⟨some "ADMIN", some "New API key"⟩),
         (oracle_ok, ⟨some "ADMIN", some "KEY123"⟩),
         (oracle_ok, ⟨some "ADMIN", some "New API key"⟩)]).1.api_key_temp_data
      "ADMIN" = some ⟨7, "KEY123"⟩ ∧
    HState.api_key_registration_state
      (process_messages ctx0 HState.empty
        [(oracle_ok, ⟨some "ADMIN", some "New API key"⟩),
         (oracle_ok, ⟨some "ADMIN", some "KEY123"⟩),
         (oracle_ok, ⟨some "ADMIN", some "New API key"⟩)]).1
      "ADMIN" = some "waiting_for_api_key" := by
  decide

/-- C10 amended: the flow-step handler (`_handle_api_key_registration_step`
with its two sub-handlers, the sources cited by the claim) preserves the
invariant that scratch data exists only in state
`waiting_for_merchant_code`: every terminal outcome of a flow step —
success, persistence failure, missing scratch data, or leaked exception —
leaves the sender with no scratch data unless that state holds.  The
invariant is not kept by every message-processing step, because the
flow-start handler sets the state without clearing stale scratch data (see
the counterexample). -/
theorem claim_C10_amended_step_invariant (st : HState) (o : MsgOracle)
    (sender message : String) (h : Inv st) :
    Inv (handle_api_key_registration_step st o sender message).1 := by
  unfold handle_api_key_registration_step
  cases hst : st.api_key_registration_state sender with
  | none => exact h
  | some state =>
    simp only []
    by_cases h1 : state = "waiting_for_api_key"
    · rw [if_pos h1]
      unfold handle_api_key_input
      cases hk : DatabaseService.save_api_key message o.save_api_key_res with
      | error e => exact clearBoth_inv st sender h
      | ok r =>
        cases r with
        | none =>
          intro s hs
          simp only at hs
          rcases eq_or_ne s sender with rfl | hne
          · have hinv := h s hs
            rw [hst] at hinv
            simp only [Option.some.injEq] at hinv
            rw [h1] at hinv
            exact absurd hinv (by decide)
          · simp only [SMap.popk, if_neg hne]
            exact h s hs
        | some kid =>
          intro s hs
          rcases eq_or_ne s sender with rfl | hne
          · simp [SMap.setk]
          · simp only [SMap.setk, if_neg hne] at hs ⊢
            exact h s hs
    · by_cases hm2 : state = "waiting_for_merchant_code"
      · rw [if_neg h1, if_pos hm2]
        unfold handle_merchant_code_input
        cases ht : st.api_key_temp_data sender with
        | none =>
          intro s hs
          simp only at hs
          rcases eq_or_ne s sender with rfl | hne
          · rw [ht] at hs
            simp at hs
          · simp only [SMap.popk, if_neg hne]
            exact h s hs
        | some temp_data =>
          simp only []
          cases hsm : DatabaseService.save_merchant_code temp_data.key_id
              message o.save_merchant_code_res with
          | error e => simp only []; exact clearBoth_inv st sender h
          | ok b =>
            cases b with
            | false => simp only []; exact clearBoth_inv st sender h
            | true =>
              simp only []
              cases hks : DatabaseService.save_token temp_data.key_id o.token
                  o.save_token_res with
              | error e => simp only []; exact clearBoth_inv st sender h
              | ok b2 =>
                cases b2 with
                | false => simp only []; exact clearBoth_inv st sender h
                | true => simp only []; exact clearBoth_inv st sender h
      · rw [if_neg h1, if_neg hm2]
        exact h

/-- C10 amended witness: the step handler keeps the invariant from the
empty store. -/
theorem claim_C10_amended_step_invariant_witness :
    Inv (handle_api_key_registration_step HState.empty oracle_ok
      "ADMIN" "x").1 :=
  claim_C10_amended_step_invariant HState.empty oracle_ok "ADMIN" "x"
    (fun s hs => by simp [HState.empty, SMap.emp] at hs)

/-- C2 counterexample: when the fetch fails with a database-library error
("connection lost"), `get_unnotified_orders` swallows the error and returns
an empty batch, so `process_new_orders` raises no alert at all — the
claimed database-category alert does not happen (no order is processed
either, which is the part of the claim that does hold). -/
theorem claim_C2_counterexample :
    process_new_orders ctx0 (DbOutcome.dbError "connection lost")
      (fun _ => oo_ok) = Eff.empty := by
  decide

/-- C2 amended: only a fetch failure that leaks an exception out of
`get_unnotified_orders` (one outside the database-library hierarchy) raises
the database-category alert with no order processed; a database-library
error during the fetch is swallowed inside `get_unnotified_orders` and
yields an empty iteration with no alert and no order processed. -/
theorem claim_C2_amended_fetch_failure (ctx : Ctx)
    (oracleFor : Order → OrderOracle) :
    (∀ e, process_new_orders ctx (DbOutcome.exc e) oracleFor =
      Eff.alertDatabase ("Order processing error: " ++ e)) ∧
    (∀ m, process_new_orders ctx (DbOutcome.dbError m) oracleFor =
      Eff.empty) ∧
    (∀ m, process_new_orders ctx (DbOutcome.integrityError m) oracleFor =
      Eff.empty) := by
  refine ⟨fun e => ?_, fun m => ?_, fun m => ?_⟩ <;>
    simp [process_new_orders, DatabaseService.get_unnotified_orders,
      MessageHandler.Eff.concat]

/-- C3 counterexample: for order 1 both sends succeed and the
mark-as-notified write fails with a database-library error, yet no alert is
raised — the failure is only logged inside the database layer and the
handler ignores the returned false.  The `notified` flag does stay false
(the only mark write recorded is unsuccessful), which is the part of the
claim that holds. -/
theorem claim_C3_counterexample :
    (process_single_order ctx0 oo_markfail ord1).alerts = [] ∧
    (process_single_order ctx0 oo_markfail ord1).markResults = [(1, false)] ∧
    (process_single_order ctx0 oo_markfail ord1).sent.map
      (fun s => s.delivered) = [true, true] := by
  decide

/-- C3 amended: when the mark-as-notified write fails with a
database-library error it returns false, which `_process_single_order`
ignores — no alert is raised and the order stays unnotified (so it is
retried); an alert scoped to the order id is raised only when the mark
write leaks an exception outside the database-library hierarchy, and the
order stays unnotified then as well. -/
theorem claim_C3_amended_mark_failure (ctx : Ctx) (o : OrderOracle)
    (order : Order)
    (hg : o.get_affiliate_by_token_res.leaks = false) :
    (∀ m, o.mark_res = .dbError m →
      (process_single_order ctx o order).alerts = [] ∧
      (process_single_order ctx o order).markResults = [(order.id, false)]) ∧
    (∀ e, o.mark_res = .exc e →
      (process_single_order ctx o order).alerts =
        [.critical ("Order " ++ toString order.id ++
          " processing error: " ++ e)] ∧
      (process_single_order ctx o order).markResults = []) := by
  have hshape : ∀ t, ∃ r, DatabaseService.get_affiliate_by_token t
      o.get_affiliate_by_token_res = Except.ok r := by
    intro t
    rcases hg' : o.get_affiliate_by_token_res with r | m | m | e
    · exact ⟨r, rfl⟩
    · exact ⟨none, rfl⟩
    · exact ⟨none, rfl⟩
    · rw [hg'] at hg; simp [DbOutcome.leaks] at hg
  refine ⟨fun m hm => ?_, fun e he => ?_⟩
  · rcases htok : MessageHandler.truthy order.affiliate_token with _ | tok
    · constructor <;>
        simp [process_single_order, htok, hm,
          DatabaseService.mark_order_as_notified, Eff.append_def,
          Eff.sendGroup, Eff.mark, Eff.empty]
    · obtain ⟨r, hr⟩ := hshape tok
      cases r <;> constructor <;>
        simp [process_single_order, htok, hr, hm,
          DatabaseService.mark_order_as_notified, Eff.append_def,
          Eff.sendGroup, Eff.send1, Eff.mark, Eff.empty]
  · rcases htok : MessageHandler.truthy order.affiliate_token with _ | tok
    · constructor <;>
        simp [process_single_order, htok, he,
          DatabaseService.mark_order_as_notified, Eff.append_def,
          Eff.sendGroup, Eff.mark, Eff.empty, Eff.alertCritical]
    · obtain ⟨r, hr⟩ := hshape tok
      cases r <;> constructor <;>
        simp [process_single_order, htok, hr, he,
          DatabaseService.mark_order_as_notified, Eff.append_def,
          Eff.sendGroup, Eff.send1, Eff.mark, Eff.empty, Eff.alertCritical]

/-- C3 amended witness: the database-error case at the concrete order. -/
theorem claim_C3_amended_mark_failure_witness :
    (process_single_order ctx0 oo_markfail ord1).alerts = [] ∧
    (process_single_order ctx0 oo_markfail ord1).markResults =
      [(ord1.id, false)] :=
  (claim_C3_amended_mark_failure ctx0 oo_markfail ord1 (by decide)).1
    "deadlock" rfl

/-- C4 counterexample: a persistence failure that is not a unique-constraint
violation (a generic database-library error, "disk full") is also caught by
`create_affiliate` and returned as `None`, so the handler only logs — no
critical alert is raised and no message is sent, contradicting the claim
that every non-unique-constraint persistence failure raises a critical
alert. -/
theorem claim_C4_counterexample :
    (process_single_message ctx0 oracle_db_fail HState.empty
      ⟨some "U1", some "go"⟩).2 = Eff.empty := by
  decide

/-- C4 amended: in affiliate registration with no existing affiliate, both a
unique-constraint failure and any other database-library persistence failure
are swallowed (logged, no alert, no message to the sender); a critical alert
is raised — still with no message to the sender — only when the persistence
call leaks an exception outside the database-library hierarchy. -/
theorem claim_C4_amended_persistence_failure (ctx : Ctx) (o : MsgOracle)
    (phone : String)
    (hget : o.get_affiliate_by_phone_res = .ok none) :
    (∀ m, o.create_affiliate_res = .integrityError m →
      handle_affiliate_registration ctx o phone = Eff.empty) ∧
    (∀ m, o.create_affiliate_res = .dbError m →
      handle_affiliate_registration ctx o phone = Eff.empty) ∧
    (∀ e, o.create_affiliate_res = .exc e →
      handle_affiliate_registration ctx o phone =
        Eff.alertCritical ("Affiliate registration error: " ++ e)) := by
  refine ⟨fun m hm => ?_, fun m hm => ?_, fun e he => ?_⟩ <;>
    simp [handle_affiliate_registration,
      DatabaseService.get_affiliate_by_phone,
      DatabaseService.create_affiliate, hget, *]

/-- C4 amended witness: the generic database-error case at the fixture. -/
theorem claim_C4_amended_persistence_failure_witness :
    handle_affiliate_registration ctx0 oracle_db_fail "U1" = Eff.empty :=
  (claim_C4_amended_persistence_failure ctx0 oracle_db_fail "U1" rfl).2.1
    "disk full" rfl

/-- C5: for an order processed without a leaked exception, the
mark-as-notified write is always invoked — a delivery result of false is
recorded but never branched on — so even when every send reported failure
the order is marked (and, when the write commits, `notified` becomes true
and the order is never retried); no alert is raised for the failed sends. -/
theorem claim_C5_mark_invoked_despite_send_failure (ctx : Ctx)
    (o : OrderOracle) (order : Order)
    (hg : o.get_affiliate_by_token_res.leaks = false)
    (hm : o.mark_res.leaks = false)
    (hso : o.send_owner_ok = false) (hsa : o.send_affiliate_ok = false) :
    (∃ success, (process_single_order ctx o order).markResults =
      [(order.id, success)]) ∧
    (process_single_order ctx o order).sent.all
      (fun s => !s.delivered) = true ∧
    (process_single_order ctx o order).alerts = [] ∧
    (o.mark_res = .ok () →
      (process_single_order ctx o order).markResults =
        [(order.id, true)]) := by
  have hshape : ∀ t, ∃ r, DatabaseService.get_affiliate_by_token t
      o.get_affiliate_by_token_res = Except.ok r := by
    intro t
    rcases hg' : o.get_affiliate_by_token_res with r | m | m | e
    · exact ⟨r, rfl⟩
    · exact ⟨none, rfl⟩
    · exact ⟨none, rfl⟩
    · rw [hg'] at hg; simp [DbOutcome.leaks] at hg
  have hmark : ∃ b, DatabaseService.mark_order_as_notified order.id o.mark_res
      = Except.ok b ∧ (o.mark_res = .ok () → b = true) := by
    rcases hm' : o.mark_res with u | m | m | e
    · exact ⟨true, rfl, fun _ => rfl⟩
    · exact ⟨false, rfl, fun hcon => by simp at hcon⟩
    · exact ⟨false, rfl, fun hcon => by simp at hcon⟩
    · rw [hm'] at hm; simp [DbOutcome.leaks] at hm
  obtain ⟨b, hb, hbt⟩ := hmark
  rcases htok : MessageHandler.truthy order.affiliate_token with _ | tok
  · refine ⟨⟨b, ?_⟩, ?_, ?_, fun hok => ?_⟩ <;>
      simp [process_single_order, htok, hb, hso, hsa, Eff.append_def,
        Eff.sendGroup, Eff.send1, Eff.mark, Eff.empty]
    rw [hbt hok]
  · obtain ⟨r, hr⟩ := hshape tok
    cases r <;>
      (refine ⟨⟨b, ?_⟩, ?_, ?_, fun hok => ?_⟩ <;>
        simp [process_single_order, htok, hr, hb, hso, hsa, Eff.append_def,
          Eff.sendGroup, Eff.send1, Eff.mark, Eff.empty])
    · rw [hbt hok]
    · rw [hbt hok]

/-- C5 witness: at the fixture where both sends fail and the mark write
commits, the order is marked notified. -/
theorem claim_C5_mark_invoked_despite_send_failure_witness :
    (process_single_order ctx0 oo_sends_fail ord1).markResults =
      [(ord1.id, true)] :=
  (claim_C5_mark_invoked_despite_send_failure ctx0 oo_sends_fail ord1
    (by decide) (by decide) rfl rfl).2.2.2 rfl

namespace WebhookService

/-- The webhook retry loop makes at least one HTTP attempt when it is given
at least one attempt index. -/
theorem send_webhook_go_pos (attempts : Nat → HttpAttempt) (attempt : Nat)
    (rest : List Nat) :
    1 ≤ (send_webhook_go attempts (attempt :: rest)).attemptCount := by
  unfold send_webhook_go
  split
  · simp [WebhookResult.attemptCount]
  · split <;> simp [WebhookResult.attemptCount]
  · split <;> simp [WebhookResult.attemptCount]
  · simp [WebhookResult.attemptCount]

/-- A disabled webhook, or one with a falsy URL, returns false with no HTTP
attempt. -/
theorem send_webhook_disabled (cfg : WebhookCfg)
    (attempts : Nat → HttpAttempt) (message alert_type : String)
    (h : cfg.enabled = false ∨ MessageHandler.truthy cfg.webhook_url = none) :
    send_webhook cfg attempts message alert_type = .done false 0 := by
  unfold send_webhook
  rcases h with h | h <;> simp [h]

/-- An enabled webhook with a truthy URL runs the retry loop over
`range(max_retries)`. -/
theorem send_webhook_enabled (cfg : WebhookCfg)
    (attempts : Nat → HttpAttempt) (message alert_type : String)
    (he : cfg.enabled = true)
    (hu : MessageHandler.truthy cfg.webhook_url ≠ none) :
    send_webhook cfg attempts message alert_type =
      send_webhook_go attempts (List.range cfg.max_retries) := by
  unfold send_webhook
  simp [he, hu]

/-- An enabled webhook with a truthy URL and a positive retry budget makes
at least one HTTP attempt, whatever the attempt outcomes. -/
theorem send_webhook_attempts_pos (cfg : WebhookCfg)
    (attempts : Nat → HttpAttempt) (message alert_type : String)
    (hr : 0 < cfg.max_retries) (he : cfg.enabled = true)
    (hu : MessageHandler.truthy cfg.webhook_url ≠ none) :
    1 ≤ (send_webhook cfg attempts message alert_type).attemptCount := by
  rw [send_webhook_enabled cfg attempts message alert_type he hu]
  rcases Nat.exists_eq_succ_of_ne_zero (by omega : cfg.max_retries ≠ 0)
    with ⟨k, hk⟩
  rw [hk, List.range_succ_eq_map]
  exact send_webhook_go_pos attempts 0 _

end WebhookService

/-- When the primary send succeeds, `send_system_alert` stops after the
primary channel with no webhook attempt and no critical log. -/
theorem send_system_alert_signal_ok (admin : String) (cfg : WebhookCfg)
    (fmt : String → List (String × String) → String)
    (attempts : Nat → HttpAttempt) (message alert_type : String) :
    AlertService.send_system_alert admin cfg fmt true attempts message
      alert_type = ⟨[Channel.primaryChat admin], 0, []⟩ := rfl

/-- When the primary send fails, `send_system_alert` is determined by the
webhook outcome: success leaves one critical log, failure leaves the
both-channels-failed log, and a leaked webhook exception is caught and
logged with the original message text. -/
theorem send_system_alert_fallback (admin : String) (cfg : WebhookCfg)
    (fmt : String → List (String × String) → String)
    (attempts : Nat → HttpAttempt) (message alert_type : String) :
    AlertService.send_system_alert admin cfg fmt false attempts message
        alert_type =
      match WebhookService.send_webhook cfg attempts
          (fmt "webhook_alert" [("message", message)]) alert_type with
      | .done true n =>
        ⟨Channel.primaryChat admin :: List.replicate n Channel.webhookPost, n,
         ["Failed to send Signal alert: " ++ message]⟩
      | .done false n =>
        ⟨Channel.primaryChat admin :: List.replicate n Channel.webhookPost, n,
         ["Failed to send Signal alert: " ++ message,
          "Both Signal and webhook alerts failed: " ++ message]⟩
      | .raised e n =>
        ⟨Channel.primaryChat admin :: List.replicate n Channel.webhookPost, n,
         ["Failed to send Signal alert: " ++ message,
          "Alert service error: " ++ e ++ " - Original message: " ++ message]⟩ :=
  rfl

/-- C9: `send_system_alert` always attempts the primary chat channel to the
admin first; the webhook channel is attempted (at least one HTTP post) if
and only if the primary attempt failed and the webhook is enabled with a
URL configured (given a positive retry budget, as in the default
configuration); when the primary fails the critical log receives exactly
the failure entries — including the both-channels-failed entry when the
webhook also reports failure; and an exception leaking from the webhook is
caught, never propagated (the embedding of the body is total), with the
original message text preserved in the log entry. -/
theorem claim_C9_alert_fallback (admin : String) (cfg : WebhookCfg)
    (fmt : String → List (String × String) → String) (signal_ok : Bool)
    (attempts : Nat → HttpAttempt) (message alert_type : String)
    (hr : 0 < cfg.max_retries) :
    (AlertService.send_system_alert admin cfg fmt signal_ok attempts message
      alert_type).channel_trace.head? = some (Channel.primaryChat admin) ∧
    (0 < (AlertService.send_system_alert admin cfg fmt signal_ok attempts
        message alert_type).webhook_http_attempts ↔
      signal_ok = false ∧ cfg.enabled = true ∧
        MessageHandler.truthy cfg.webhook_url ≠ none) ∧
    (signal_ok = true →
      (AlertService.send_system_alert admin cfg fmt signal_ok attempts message
        alert_type).critical_logs = []) ∧
    (signal_ok = false → ∀ n,
      WebhookService.send_webhook cfg attempts
          (fmt "webhook_alert" [("message", message)]) alert_type =
        .done false n →
      (AlertService.send_system_alert admin cfg fmt signal_ok attempts message
        alert_type).critical_logs =
        ["Failed to send Signal alert: " ++ message,
         "Both Signal and webhook alerts failed: " ++ message]) ∧
    (signal_ok = false → ∀ e n,
      WebhookService.send_webhook cfg attempts
          (fmt "webhook_alert" [("message", message)]) alert_type =
        .raised e n →
      (AlertService.send_system_alert admin cfg fmt signal_ok attempts message
        alert_type).critical_logs =
        ["Failed to send Signal alert: " ++ message,
         "Alert service error: " ++ e ++ " - Original message: " ++
           message]) := by
  cases signal_ok with
  | true =>
    rw [send_system_alert_signal_ok]
    refine ⟨rfl, ?_, fun _ => rfl, ?_, ?_⟩
    · simp
    · intro hcon; simp at hcon
    · intro hcon; simp at hcon
  | false =>
    rw [send_system_alert_fallback]
    have hfwd : ∀ n : Nat, 0 < n →
        (WebhookService.send_webhook cfg attempts
          (fmt "webhook_alert" [("message", message)])
            alert_type).attemptCount = n →
        cfg.enabled = true ∧ MessageHandler.truthy cfg.webhook_url ≠ none := by
      intro n hn hcount
      constructor
      · by_cases he : cfg.enabled = true
        · exact he
        · have hd := WebhookService.send_webhook_disabled cfg attempts
            (fmt "webhook_alert" [("message", message)]) alert_type
            (Or.inl (by simpa using he))
          rw [hd] at hcount
          simp [WebhookResult.attemptCount] at hcount
          omega
      · intro hu
        have hd := WebhookService.send_webhook_disabled cfg attempts
          (fmt "webhook_alert" [("message", message)]) alert_type (Or.inr hu)
        rw [hd] at hcount
        simp [WebhookResult.attemptCount] at hcount
        omega
    have hbwd : cfg.enabled = true →
        MessageHandler.truthy cfg.webhook_url ≠ none →
        1 ≤ (WebhookService.send_webhook cfg attempts
          (fmt "webhook_alert" [("message", message)])
            alert_type).attemptCount :=
      fun he hu => WebhookService.send_webhook_attempts_pos cfg attempts
        (fmt "webhook_alert" [("message", message)]) alert_type hr he hu
    cases hw : WebhookService.send_webhook cfg attempts
        (fmt "webhook_alert" [("message", message)]) alert_type with
    | done s n =>
      rw [hw] at hfwd hbwd
      simp only [WebhookResult.attemptCount] at hfwd hbwd
      cases s with
      | true =>
        refine ⟨rfl, ?_, ?_, ?_, ?_⟩
        · exact ⟨fun hn => ⟨rfl, hfwd n hn rfl⟩,
            fun hc => hbwd hc.2.1 hc.2.2⟩
        · intro hcon; simp at hcon
        · intro _ n' hw'
          simp at hw'
        · intro _ e n' hw'
          simp at hw'
      | false =>
        refine ⟨rfl, ?_, ?_, ?_, ?_⟩
        · exact ⟨fun hn => ⟨rfl, hfwd n hn rfl⟩,
            fun hc => hbwd hc.2.1 hc.2.2⟩
        · intro hcon; simp at hcon
        · intro _ n' hw'
          cases hw'
          rfl
        · intro _ e n' hw'
          simp at hw'
    | raised e n =>
      rw [hw] at hfwd hbwd
      simp only [WebhookResult.attemptCount] at hfwd hbwd
      refine ⟨rfl, ?_, ?_, ?_, ?_⟩
      · exact ⟨fun hn => ⟨rfl, hfwd n hn rfl⟩,
          fun hc => hbwd hc.2.1 hc.2.2⟩
      · intro hcon; simp at hcon
      · intro _ n' hw'
        simp at hw'
      · intro _ e' n' hw'
        cases hw'
        rfl

/-- C9 witness: with the webhook enabled and the primary channel failing,
the primary chat channel to the admin heads the attempt trace. -/
theorem claim_C9_alert_fallback_witness :
    (AlertService.send_system_alert "ADMIN" cfg0 (fun k _ => k) false
      (fun _ => HttpAttempt.requestExc "refused") "MSG"
      "critical").channel_trace.head? = some (Channel.primaryChat "ADMIN") :=
  (claim_C9_alert_fallback "ADMIN" cfg0 (fun k _ => k) false
    (fun _ => HttpAttempt.requestExc "refused") "MSG" "critical"
    (by decide)).1

end SignalAutomation
